import Mathlib

/-!
Verification of the deterministic calculation layer of the Covalence
CBAM dashboard (src/app.py).  The core is a straight-line sequence of
arithmetic formulas computing CBAM exposure, margin erosion, a
competitiveness classification, a decarbonisation scenario, finance
sizing, a readiness score and banker-side debt metrics from a set of
scalar inputs.  We embed the numeric layer over ℚ, keeping the names of
the Python variables, and prove the claimed properties.
-/

/-- The scalar inputs of the calculation layer: the sidebar inputs of
src/app.py together with the two values extracted from the selected
sector reference row (eu_benchmark, ets_price) and the pre-CBAM margin
taken from that row. -/
structure Inputs where
  user_intensity : ℚ
  export_volume_tonnes : ℚ
  selling_price : ℚ
  pre_margin_pct : ℚ
  reduction_pct : ℚ
  capex_per_pct_reduction_million_eur : ℚ
  slb_rate_discount_bps : ℚ
  deal_tenor_years : ℚ
  EUR_to_INR_rate : ℚ
  eu_benchmark : ℚ
  ets_price : ℚ

/-- src/app.py line 144: `excess_intensity = max(user_intensity - eu_benchmark, 0)`. -/
def excess_intensity (i : Inputs) : ℚ :=
  max (i.user_intensity - i.eu_benchmark) 0

/-- src/app.py line 145: `cbam_cost_per_tonne_calc = excess_intensity * ets_price`. -/
def cbam_cost_per_tonne_calc (i : Inputs) : ℚ :=
  excess_intensity i * i.ets_price

/-- src/app.py line 146: `total_cbam_bill = cbam_cost_per_tonne_calc * export_volume_tonnes`. -/
def total_cbam_bill (i : Inputs) : ℚ :=
  cbam_cost_per_tonne_calc i * i.export_volume_tonnes

/-- src/app.py line 147: `total_cbam_bill_inr = total_cbam_bill * EUR_to_INR_rate`. -/
def total_cbam_bill_inr (i : Inputs) : ℚ :=
  total_cbam_bill i * i.EUR_to_INR_rate

/-- src/app.py line 150:
`cbam_hit_pct_of_price = (cbam_cost_per_tonne_calc / selling_price * 100) if selling_price > 0 else 0`. -/
def cbam_hit_pct_of_price (i : Inputs) : ℚ :=
  if i.selling_price > 0 then cbam_cost_per_tonne_calc i / i.selling_price * 100 else 0

/-- src/app.py line 151: `post_margin_pct = max(pre_margin_pct - cbam_hit_pct_of_price, 0)`. -/
def post_margin_pct (i : Inputs) : ℚ :=
  max (i.pre_margin_pct - cbam_hit_pct_of_price i) 0

/-- src/app.py line 152: `margin_delta = post_margin_pct - pre_margin_pct`. -/
def margin_delta (i : Inputs) : ℚ :=
  post_margin_pct i - i.pre_margin_pct

/-- src/app.py lines 154-162: the three-way classification of
`cbam_hit_pct_of_price` with thresholds 5 and 15 (inclusive on the lower
tier). -/
def competitiveness (i : Inputs) : String :=
  if cbam_hit_pct_of_price i ≤ 5 then "GREEN – Broadly Aligned"
  else if cbam_hit_pct_of_price i ≤ 15 then "YELLOW – Cost Pressure"
  else "RED – High Substitution Risk"

/-- src/app.py line 165: `reduced_intensity = user_intensity * (1 - reduction_pct/100)`. -/
def reduced_intensity (i : Inputs) : ℚ :=
  i.user_intensity * (1 - i.reduction_pct / 100)

/-- src/app.py line 166: `excess_after = max(reduced_intensity - eu_benchmark, 0)`. -/
def excess_after (i : Inputs) : ℚ :=
  max (reduced_intensity i - i.eu_benchmark) 0

/-- src/app.py line 167: `cbam_after_per_tonne = excess_after * ets_price`. -/
def cbam_after_per_tonne (i : Inputs) : ℚ :=
  excess_after i * i.ets_price

/-- src/app.py line 168: `total_cbam_after = cbam_after_per_tonne * export_volume_tonnes`. -/
def total_cbam_after (i : Inputs) : ℚ :=
  cbam_after_per_tonne i * i.export_volume_tonnes

/-- src/app.py line 170: `cbam_savings_total = max(total_cbam_bill - total_cbam_after, 0)`. -/
def cbam_savings_total (i : Inputs) : ℚ :=
  max (total_cbam_bill i - total_cbam_after i) 0

/-- src/app.py line 171: `cbam_savings_total_inr = cbam_savings_total * EUR_to_INR_rate`. -/
def cbam_savings_total_inr (i : Inputs) : ℚ :=
  cbam_savings_total i * i.EUR_to_INR_rate

/-- src/app.py line 174:
`total_transition_capex_million_eur = capex_per_pct_reduction_million_eur * reduction_pct`. -/
def total_transition_capex_million_eur (i : Inputs) : ℚ :=
  i.capex_per_pct_reduction_million_eur * i.reduction_pct

/-- src/app.py line 175: `total_transition_capex_eur = total_transition_capex_million_eur * 1_000_000`. -/
def total_transition_capex_eur (i : Inputs) : ℚ :=
  total_transition_capex_million_eur i * 1000000

/-- src/app.py line 176: `total_transition_capex_inr = total_transition_capex_eur * EUR_to_INR_rate`. -/
def total_transition_capex_inr (i : Inputs) : ℚ :=
  total_transition_capex_eur i * i.EUR_to_INR_rate

/-- src/app.py line 177:
`annual_finance_relief_estimate_eur = (slb_rate_discount_bps / 10000) * total_transition_capex_eur`. -/
def annual_finance_relief_estimate_eur (i : Inputs) : ℚ :=
  i.slb_rate_discount_bps / 10000 * total_transition_capex_eur i

/-- src/app.py line 178:
`annual_finance_relief_estimate_inr = annual_finance_relief_estimate_eur * EUR_to_INR_rate`. -/
def annual_finance_relief_estimate_inr (i : Inputs) : ℚ :=
  annual_finance_relief_estimate_eur i * i.EUR_to_INR_rate

/-- src/app.py line 183:
`score_raw = (cbam_hit_pct_of_price * 2) + (pre_margin_pct - post_margin_pct) * 5`. -/
def score_raw (i : Inputs) : ℚ :=
  cbam_hit_pct_of_price i * 2 + (i.pre_margin_pct - post_margin_pct i) * 5

/-- src/app.py line 184: `readiness_score = max(min(100 - score_raw, 100), 0)`. -/
def readiness_score (i : Inputs) : ℚ :=
  max (min (100 - score_raw i) 100) 0

/-- src/app.py line 187:
`annual_debt_service_eur = (total_transition_capex_eur / deal_tenor_years) if deal_tenor_years > 0 else 0`. -/
def annual_debt_service_eur (i : Inputs) : ℚ :=
  if i.deal_tenor_years > 0 then total_transition_capex_eur i / i.deal_tenor_years else 0

/-- src/app.py line 188: `annual_debt_service_inr = annual_debt_service_eur * EUR_to_INR_rate`. -/
def annual_debt_service_inr (i : Inputs) : ℚ :=
  annual_debt_service_eur i * i.EUR_to_INR_rate

/-- src/app.py line 189:
`annual_cash_flow_gain_eur = cbam_savings_total + annual_finance_relief_estimate_eur`. -/
def annual_cash_flow_gain_eur (i : Inputs) : ℚ :=
  cbam_savings_total i + annual_finance_relief_estimate_eur i

/-- src/app.py line 190: `annual_cash_flow_gain_inr = annual_cash_flow_gain_eur * EUR_to_INR_rate`. -/
def annual_cash_flow_gain_inr (i : Inputs) : ℚ :=
  annual_cash_flow_gain_eur i * i.EUR_to_INR_rate

/-- src/app.py line 191:
`coverage_ratio = (annual_cash_flow_gain_eur / annual_debt_service_eur) if annual_debt_service_eur > 0 else 999`. -/
def coverage_ratio (i : Inputs) : ℚ :=
  if annual_debt_service_eur i > 0 then annual_cash_flow_gain_eur i / annual_debt_service_eur i else 999

/-- src/app.py line 470:
`payback_period = (total_transition_capex_eur / annual_cash_flow_gain_eur) if annual_cash_flow_gain_eur > 0 else 0`. -/
def payback_period (i : Inputs) : ℚ :=
  if annual_cash_flow_gain_eur i > 0 then total_transition_capex_eur i / annual_cash_flow_gain_eur i else 0

/-- A concrete input family for exercising the margin classifier: with a
selling price of 100, a zero EU benchmark and an ETS price of 1, the
CBAM hit percentage equals the plant intensity x (for x ≥ 0). -/
def hitI (x : ℚ) : Inputs :=
  ⟨x, 0, 100, 0, 0, 0, 0, 0, 0, 0, 1⟩

/-- The concrete exposure scenario of the spec: plant intensity 2.0,
EU benchmark 1.0, ETS price 80, export volume 10000 (selling price 100,
all decarbonisation and finance inputs zero). -/
def expoI : Inputs :=
  ⟨2, 10000, 100, 0, 0, 0, 0, 0, 0, 1, 80⟩

/-- A concrete input with a zero selling price (degenerate but valid). -/
def zeroPriceI : Inputs :=
  ⟨3, 10, 0, 20, 0, 0, 0, 0, 0, 1, 80⟩

/-- A concrete banker scenario: 10% reduction, 1 m€ capex per percent,
75 bps incentive, 7-year tenor, pre-CBAM margin 20%. -/
def bankI : Inputs :=
  ⟨2, 10000, 100, 20, 10, 1, 75, 7, 88, 1, 80⟩

/-- Claim C1: the competitiveness classification is a total step function
of cbam_hit_pct_of_price with thresholds 5 and 15, ties going to the
lower tier: hit ≤ 5 is GREEN, 5 < hit ≤ 15 is YELLOW, hit > 15 is RED;
in particular a hit of exactly 5 is GREEN, 5.0001 is YELLOW, exactly 15
is YELLOW and 15.0001 is RED. -/
theorem C1_competitiveness_step (i : Inputs) :
    ((cbam_hit_pct_of_price i ≤ 5 → competitiveness i = "GREEN – Broadly Aligned") ∧
     (5 < cbam_hit_pct_of_price i → cbam_hit_pct_of_price i ≤ 15 →
       competitiveness i = "YELLOW – Cost Pressure") ∧
     (15 < cbam_hit_pct_of_price i → competitiveness i = "RED – High Substitution Risk")) ∧
    (cbam_hit_pct_of_price (hitI 5) = 5 ∧
      competitiveness (hitI 5) = "GREEN – Broadly Aligned") ∧
    (cbam_hit_pct_of_price (hitI 5.0001) = 5.0001 ∧
      competitiveness (hitI 5.0001) = "YELLOW – Cost Pressure") ∧
    (cbam_hit_pct_of_price (hitI 15) = 15 ∧
      competitiveness (hitI 15) = "YELLOW – Cost Pressure") ∧
    (cbam_hit_pct_of_price (hitI 15.0001) = 15.0001 ∧
      competitiveness (hitI 15.0001) = "RED – High Substitution Risk") := by
  refine ⟨⟨fun h => ?_, fun h1 h2 => ?_, fun h => ?_⟩, ?_, ?_, ?_, ?_⟩
  · unfold competitiveness
    rw [if_pos h]
  · unfold competitiveness
    rw [if_neg (not_le.mpr h1), if_pos h2]
  · unfold competitiveness
    rw [if_neg (not_le.mpr (lt_trans (by norm_num) h)), if_neg (not_le.mpr h)]
  all_goals
    constructor <;>
      norm_num [competitiveness, cbam_hit_pct_of_price, cbam_cost_per_tonne_calc,
        excess_intensity, hitI]

/-- Witness for C1 at a concrete mid-tier input: a hit of 10 is
classified YELLOW by the middle branch of the step function. -/
theorem C1_witness :
    5 < cbam_hit_pct_of_price (hitI 10) ∧ cbam_hit_pct_of_price (hitI 10) ≤ 15 ∧
    competitiveness (hitI 10) = "YELLOW – Cost Pressure" :=
  ⟨by norm_num [cbam_hit_pct_of_price, cbam_cost_per_tonne_calc, excess_intensity, hitI],
   by norm_num [cbam_hit_pct_of_price, cbam_cost_per_tonne_calc, excess_intensity, hitI],
   (C1_competitiveness_step (hitI 10)).1.2.1
     (by norm_num [cbam_hit_pct_of_price, cbam_cost_per_tonne_calc, excess_intensity, hitI])
     (by norm_num [cbam_hit_pct_of_price, cbam_cost_per_tonne_calc, excess_intensity, hitI])⟩

/-- Claim C2: the exposure stage computes excess intensity, per-tonne
CBAM cost, the total CBAM bill and its INR conversion by the stated
formulas, and on the concrete scenario (plant 2.0, benchmark 1.0, ETS 80,
volume 10000) yields excess 1, per-tonne cost 80 and total bill 800000. -/
theorem C2_exposure_formulas (i : Inputs) :
    (excess_intensity i = max (i.user_intensity - i.eu_benchmark) 0 ∧
     cbam_cost_per_tonne_calc i = excess_intensity i * i.ets_price ∧
     total_cbam_bill i = cbam_cost_per_tonne_calc i * i.export_volume_tonnes ∧
     total_cbam_bill_inr i = total_cbam_bill i * i.EUR_to_INR_rate) ∧
    (excess_intensity expoI = 1 ∧ cbam_cost_per_tonne_calc expoI = 80 ∧
     total_cbam_bill expoI = 800000) := by
  refine ⟨⟨rfl, rfl, rfl, rfl⟩, ?_, ?_, ?_⟩ <;>
    norm_num [total_cbam_bill, cbam_cost_per_tonne_calc, excess_intensity, expoI]

/-- Claim C3: with all other inputs fixed and non-negative, increasing
the reduction target never increases the post-reduction CBAM bill and
never decreases the CBAM savings. -/
theorem C3_reduction_monotone (i : Inputs) (r1 r2 : ℚ)
    (hu : 0 ≤ i.user_intensity) (hets : 0 ≤ i.ets_price)
    (hvol : 0 ≤ i.export_volume_tonnes) (hr : r1 ≤ r2) :
    total_cbam_after { i with reduction_pct := r2 } ≤
      total_cbam_after { i with reduction_pct := r1 } ∧
    cbam_savings_total { i with reduction_pct := r1 } ≤
      cbam_savings_total { i with reduction_pct := r2 } := by
  have hred : reduced_intensity { i with reduction_pct := r2 } ≤
      reduced_intensity { i with reduction_pct := r1 } := by
    show i.user_intensity * (1 - r2 / 100) ≤ i.user_intensity * (1 - r1 / 100)
    nlinarith [mul_nonneg hu (sub_nonneg.mpr hr)]
  have hex : excess_after { i with reduction_pct := r2 } ≤
      excess_after { i with reduction_pct := r1 } :=
    max_le_max (sub_le_sub_right hred _) le_rfl
  have hcat : cbam_after_per_tonne { i with reduction_pct := r2 } ≤
      cbam_after_per_tonne { i with reduction_pct := r1 } :=
    mul_le_mul_of_nonneg_right hex hets
  have htot : total_cbam_after { i with reduction_pct := r2 } ≤
      total_cbam_after { i with reduction_pct := r1 } :=
    mul_le_mul_of_nonneg_right hcat hvol
  refine ⟨htot, ?_⟩
  unfold cbam_savings_total
  rw [show total_cbam_bill { i with reduction_pct := r1 } =
    total_cbam_bill { i with reduction_pct := r2 } from rfl]
  exact max_le_max (sub_le_sub_left htot _) le_rfl

/-- Witness for C3: on the concrete exposure scenario, raising the
reduction target from 0% to 50% does not raise the post-reduction bill
and does not lower the savings. -/
theorem C3_witness :
    (0 ≤ expoI.user_intensity ∧ 0 ≤ expoI.ets_price ∧
     0 ≤ expoI.export_volume_tonnes ∧ (0 : ℚ) ≤ 50) ∧
    (total_cbam_after { expoI with reduction_pct := 50 } ≤
       total_cbam_after { expoI with reduction_pct := 0 } ∧
     cbam_savings_total { expoI with reduction_pct := 0 } ≤
       cbam_savings_total { expoI with reduction_pct := 50 }) :=
  ⟨⟨by norm_num [expoI], by norm_num [expoI], by norm_num [expoI], by norm_num⟩,
   C3_reduction_monotone expoI 0 50 (by norm_num [expoI]) (by norm_num [expoI])
     (by norm_num [expoI]) (by norm_num)⟩

/-- Claim C4: the readiness score equals the clamp to [0, 100] of
100 minus (cbam_hit_pct_of_price * 2 + (pre_margin - post_margin) * 5),
and is therefore always within [0, 100]. -/
theorem C4_readiness_clamp (i : Inputs) :
    readiness_score i =
      max (min (100 - (cbam_hit_pct_of_price i * 2 +
        (i.pre_margin_pct - post_margin_pct i) * 5)) 100) 0 ∧
    0 ≤ readiness_score i ∧ readiness_score i ≤ 100 :=
  ⟨rfl, le_max_right _ _, max_le (min_le_right _ _) (by norm_num)⟩

/-- Claim C5: the excess intensity, post-reduction excess, CBAM savings
are all floored at zero, and the readiness score lies in [0, 100]; this
holds unconditionally since the floors are max-with-zero guards and the
score is clamped. -/
theorem C5_floor_invariants (i : Inputs) :
    0 ≤ excess_intensity i ∧ 0 ≤ excess_after i ∧ 0 ≤ cbam_savings_total i ∧
    0 ≤ readiness_score i ∧ readiness_score i ≤ 100 :=
  ⟨le_max_right _ _, le_max_right _ _, le_max_right _ _, le_max_right _ _,
   max_le (min_le_right _ _) (by norm_num)⟩

/-- Claim C6: the CBAM hit percentage is the guarded division
cbam_cost_per_tonne / selling_price * 100 when the selling price is
positive, and 0 when the selling price is zero. -/
theorem C6_hit_guarded_division (i : Inputs) :
    (0 < i.selling_price →
      cbam_hit_pct_of_price i = cbam_cost_per_tonne_calc i / i.selling_price * 100) ∧
    (i.selling_price = 0 → cbam_hit_pct_of_price i = 0) := by
  constructor
  · intro h
    unfold cbam_hit_pct_of_price
    rw [if_pos h]
  · intro h
    unfold cbam_hit_pct_of_price
    rw [if_neg]
    rw [h]
    exact lt_irrefl 0

/-- Witness for C6: the guarded branch at a positive selling price, and
the zero branch at the degenerate zero-price input. -/
theorem C6_witness :
    (0 < expoI.selling_price ∧
      cbam_hit_pct_of_price expoI =
        cbam_cost_per_tonne_calc expoI / expoI.selling_price * 100) ∧
    (zeroPriceI.selling_price = 0 ∧ cbam_hit_pct_of_price zeroPriceI = 0) :=
  ⟨⟨by norm_num [expoI], (C6_hit_guarded_division expoI).1 (by norm_num [expoI])⟩,
   ⟨rfl, (C6_hit_guarded_division zeroPriceI).2 rfl⟩⟩

/-- Claim C7: the debt-service coverage ratio is the quotient of annual
cash-flow gain by annual debt service when the debt service is positive,
and the sentinel 999 whenever the debt service is zero. -/
theorem C7_coverage_sentinel (i : Inputs) :
    (0 < annual_debt_service_eur i →
      coverage_ratio i = annual_cash_flow_gain_eur i / annual_debt_service_eur i) ∧
    (annual_debt_service_eur i = 0 → coverage_ratio i = 999) := by
  constructor
  · intro h
    unfold coverage_ratio
    rw [if_pos h]
  · intro h
    unfold coverage_ratio
    rw [if_neg]
    rw [h]
    exact lt_irrefl 0

/-- Witness for C7: the quotient branch on the banker scenario (positive
debt service), and the 999 sentinel on the scenario with zero capex and
zero tenor (zero debt service). -/
theorem C7_witness :
    (0 < annual_debt_service_eur bankI ∧
      coverage_ratio bankI = annual_cash_flow_gain_eur bankI / annual_debt_service_eur bankI) ∧
    (annual_debt_service_eur expoI = 0 ∧ coverage_ratio expoI = 999) :=
  ⟨⟨by norm_num [annual_debt_service_eur, total_transition_capex_eur,
      total_transition_capex_million_eur, bankI],
    (C7_coverage_sentinel bankI).1 (by norm_num [annual_debt_service_eur,
      total_transition_capex_eur, total_transition_capex_million_eur, bankI])⟩,
   ⟨by norm_num [annual_debt_service_eur, expoI],
    (C7_coverage_sentinel expoI).2 (by norm_num [annual_debt_service_eur, expoI])⟩⟩

/-- Claim C8: for a non-negative pre-CBAM margin and a non-negative CBAM
hit percentage, the post-CBAM margin is max(pre_margin - hit, 0) and the
margin delta post_margin - pre_margin is never positive. -/
theorem C8_margin_erosion (i : Inputs)
    (hpre : 0 ≤ i.pre_margin_pct) (hhit : 0 ≤ cbam_hit_pct_of_price i) :
    post_margin_pct i = max (i.pre_margin_pct - cbam_hit_pct_of_price i) 0 ∧
    margin_delta i ≤ 0 := by
  refine ⟨rfl, ?_⟩
  unfold margin_delta post_margin_pct
  have h : max (i.pre_margin_pct - cbam_hit_pct_of_price i) 0 ≤ i.pre_margin_pct :=
    max_le (by linarith) hpre
  linarith

/-- Witness for C8 on the banker scenario: margin 20%, hit 80%, so the
post margin floors at 0 and the delta is -20 ≤ 0. -/
theorem C8_witness :
    (0 ≤ bankI.pre_margin_pct ∧ 0 ≤ cbam_hit_pct_of_price bankI) ∧
    (post_margin_pct bankI = max (bankI.pre_margin_pct - cbam_hit_pct_of_price bankI) 0 ∧
     margin_delta bankI ≤ 0) :=
  ⟨⟨by norm_num [bankI],
    by norm_num [cbam_hit_pct_of_price, cbam_cost_per_tonne_calc, excess_intensity, bankI]⟩,
   C8_margin_erosion bankI (by norm_num [bankI])
     (by norm_num [cbam_hit_pct_of_price, cbam_cost_per_tonne_calc, excess_intensity, bankI])⟩

/-- Claim C9: the simple payback period is total transition capex divided
by the annual cash-flow gain when the gain is positive, and 0 whenever
the gain is zero or negative. -/
theorem C9_payback_guard (i : Inputs) :
    (0 < annual_cash_flow_gain_eur i →
      payback_period i = total_transition_capex_eur i / annual_cash_flow_gain_eur i) ∧
    (annual_cash_flow_gain_eur i ≤ 0 → payback_period i = 0) := by
  constructor
  · intro h
    unfold payback_period
    rw [if_pos h]
  · intro h
    unfold payback_period
    rw [if_neg (not_lt.mpr h)]

/-- Witness for C9: the quotient branch on the banker scenario (positive
gain) and the zero branch on the exposure-only scenario (zero gain). -/
theorem C9_witness :
    (0 < annual_cash_flow_gain_eur bankI ∧
      payback_period bankI = total_transition_capex_eur bankI / annual_cash_flow_gain_eur bankI) ∧
    (annual_cash_flow_gain_eur expoI ≤ 0 ∧ payback_period expoI = 0) :=
  ⟨⟨by norm_num [annual_cash_flow_gain_eur, cbam_savings_total,
      annual_finance_relief_estimate_eur, total_transition_capex_eur,
      total_transition_capex_million_eur, total_cbam_bill, total_cbam_after,
      cbam_after_per_tonne, excess_after, reduced_intensity,
      cbam_cost_per_tonne_calc, excess_intensity, bankI],
    (C9_payback_guard bankI).1 (by norm_num [annual_cash_flow_gain_eur, cbam_savings_total,
      annual_finance_relief_estimate_eur, total_transition_capex_eur,
      total_transition_capex_million_eur, total_cbam_bill, total_cbam_after,
      cbam_after_per_tonne, excess_after, reduced_intensity,
      cbam_cost_per_tonne_calc, excess_intensity, bankI])⟩,
   ⟨by norm_num [annual_cash_flow_gain_eur, cbam_savings_total,
      annual_finance_relief_estimate_eur, total_transition_capex_eur,
      total_transition_capex_million_eur, total_cbam_bill, total_cbam_after,
      cbam_after_per_tonne, excess_after, reduced_intensity,
      cbam_cost_per_tonne_calc, excess_intensity, expoI],
    (C9_payback_guard expoI).2 (by norm_num [annual_cash_flow_gain_eur, cbam_savings_total,
      annual_finance_relief_estimate_eur, total_transition_capex_eur,
      total_transition_capex_million_eur, total_cbam_bill, total_cbam_after,
      cbam_after_per_tonne, excess_after, reduced_intensity,
      cbam_cost_per_tonne_calc, excess_intensity, expoI])⟩⟩

/-- Claim C10: every INR-denominated output is exactly its EUR
counterpart times the single exchange rate: the CBAM bill, the CBAM
savings, the transition capex, the annual finance relief, the annual
debt service and the annual cash-flow gain are all converted uniformly
after the EUR-side arithmetic. -/
theorem C10_inr_uniform_conversion (i : Inputs) :
    total_cbam_bill_inr i = total_cbam_bill i * i.EUR_to_INR_rate ∧
    cbam_savings_total_inr i = cbam_savings_total i * i.EUR_to_INR_rate ∧
    total_transition_capex_inr i = total_transition_capex_eur i * i.EUR_to_INR_rate ∧
    annual_finance_relief_estimate_inr i =
      annual_finance_relief_estimate_eur i * i.EUR_to_INR_rate ∧
    annual_debt_service_inr i = annual_debt_service_eur i * i.EUR_to_INR_rate ∧
    annual_cash_flow_gain_inr i = annual_cash_flow_gain_eur i * i.EUR_to_INR_rate :=
  ⟨rfl, rfl, rfl, rfl, rfl, rfl⟩
